import Mathlib

/-!
Verification of the Transformation Client of the Generate-ID-Photo
repository (src/services/geminiService.ts), shallowly embedded in Lean.

The embedding models:
- the request that `transformToIdPhoto` builds (two parts: the inline
  source image and the instruction text parameterized by the aspect
  ratio, plus the declared response modalities);
- the response scan (`for (const part of response.candidates[0].content.parts)
  if (part.inlineData && part.inlineData.data) return part.inlineData.data`),
  including the JavaScript faults (TypeError) raised when `candidates`
  is absent or empty, or `content` or `parts` are absent;
- the catch block that wraps any thrown `Error` as
  `Failed to generate ID photo: ...` and any non-Error thrown value as
  the generic unknown-error message;
- module initialization (`const API_KEY = process.env.API_KEY;
  if (!API_KEY) console.warn(...)`) as a pure function from the
  environment value to a warning list and a client state.
-/

namespace GenerateIdPhoto

/-- Inline binary data of a part, as in the @google/genai `Blob` shape:
both fields are optional at the wire level. -/
structure InlineData where
  data : Option String := none
  mimeType : Option String := none
  deriving DecidableEq, Repr

/-- One heterogeneous part of a request or response: it may carry inline
binary data, text, neither or both. -/
structure Part where
  inlineData : Option InlineData := none
  text : Option String := none
  deriving DecidableEq, Repr

/-- The content of a candidate: an optional ordered list of parts. -/
structure Content where
  parts : Option (List Part) := none
  deriving DecidableEq, Repr

/-- One response candidate. -/
structure Candidate where
  content : Option Content := none
  deriving DecidableEq, Repr

/-- The service response: an optional list of candidates. -/
structure GenerateContentResponse where
  candidates : Option (List Candidate) := none
  deriving DecidableEq, Repr

/-- Declared acceptable response modalities, as in the SDK enum. -/
inductive Modality where
  | TEXT
  | IMAGE
  | AUDIO
  deriving DecidableEq, Repr

/-- A JavaScript thrown value: either an `instanceof Error` with its
message, or any other thrown value (not a recognized error shape). -/
inductive JsValue where
  | error (message : String)
  | nonError
  deriving DecidableEq, Repr

/-- The outcome of the awaited transport call: a response, or a thrown
value rejected by the transport or service. -/
inductive TransportResult where
  | ok (resp : GenerateContentResponse)
  | thrown (v : JsValue)
  deriving DecidableEq, Repr

/-- The no-image error message thrown when the scan finds no part with
inline image data. -/
def noImageMessage : String :=
  "The AI did not return an image. Please try a different photo."

/-- The wrapper text prepended to the message of a caught Error. -/
def failureHeader : String := "Failed to generate ID photo: "

/-- The message used when the caught value is not an Error. -/
def unknownErrorMessage : String :=
  "An unknown error occurred while generating the ID photo."

/-- Message of the TypeError raised by `response.candidates[0]` when
`candidates` is undefined. -/
def jsTypeErrorCandidates : String :=
  "Cannot read properties of undefined (reading 0)"

/-- Message of the TypeError raised by reading `content` of the
undefined element `candidates[0]` of an empty list. -/
def jsTypeErrorContent : String :=
  "Cannot read properties of undefined (reading content)"

/-- Message of the TypeError raised by reading `parts` of an undefined
`content`. -/
def jsTypeErrorParts : String :=
  "Cannot read properties of undefined (reading parts)"

/-- Message of the TypeError raised by iterating over undefined
`parts`. -/
def jsTypeErrorIterate : String := "undefined is not iterable"

/-- Truthiness test of `part.inlineData && part.inlineData.data` and
extraction of the returned payload: some payload exactly when the part
has inline data whose `data` field is a present, non-empty string. -/
def imagePayload (p : Part) : Option String :=
  match p.inlineData with
  | none => none
  | some d =>
    match d.data with
    | none => none
    | some s => if s = "" then none else some s

/-- The response-scanning loop: return the payload of the first part
whose inline data is present and non-empty. -/
def findImagePart : List Part → Option String
  | [] => none
  | p :: rest =>
    match imagePayload p with
    | some s => some s
    | none => findImagePart rest

/-- The body of the `try` block after the transport call returned a
response: navigate `response.candidates[0].content.parts` (each missing
step raises a TypeError, an Error), run the scan, and throw the
no-image Error when the scan finds nothing. -/
def scanResponse (resp : GenerateContentResponse) : Except JsValue String :=
  match resp.candidates with
  | none => .error (.error jsTypeErrorCandidates)
  | some [] => .error (.error jsTypeErrorContent)
  | some (c :: _) =>
    match c.content with
    | none => .error (.error jsTypeErrorParts)
    | some ct =>
      match ct.parts with
      | none => .error (.error jsTypeErrorIterate)
      | some ps =>
        match findImagePart ps with
        | some s => .ok s
        | none => .error (.error noImageMessage)

/-- The whole `try` block: a thrown transport value propagates, a
response is scanned. -/
def runTransform (tr : TransportResult) : Except JsValue String :=
  match tr with
  | .thrown v => .error v
  | .ok resp => scanResponse resp

/-- The `transformToIdPhoto` function applied to the outcome of its
single awaited transport call: the catch block wraps an Error message
with the failure header and any other thrown value with the generic
message. -/
def transformToIdPhoto (tr : TransportResult) : Except String String :=
  match runTransform tr with
  | .ok s => .ok s
  | .error (.error m) => .error (failureHeader ++ m)
  | .error .nonError => .error unknownErrorMessage

/-- The instruction template up to the first substitution of the aspect
ratio. -/
def instructionHead : String :=
  "Transform the person in the image into a standard ID photo.\n\n**CRITICAL INSTRUCTIONS:**\n1.  **Final Image Dimensions:** The MOST IMPORTANT requirement is the final image's aspect ratio. It **MUST BE EXACTLY "

/-- The instruction template between the two substitutions of the
aspect ratio. -/
def instructionMiddle : String :=
  " (width to height)**. The entire output image file must have this specific shape. This instruction is more important than all others. Do not fail on this.\n2.  **Attire:** Dress the person in a simple, plain white collared shirt.\n3.  **Posture:** The person must face forward, looking directly at the camera with their shoulders straight and squared.\n4.  **Background:** Replace the entire background with a solid, plain, professional light blue color.\n5.  **Composition:** Crop the image to a head-and-shoulders portrait.\n6.  **Identity Preservation:** Do not change the person's face, hair, or identity.\n\nReminder: The final image's aspect ratio **MUST be "

/-- The instruction template after the second substitution of the
aspect ratio. -/
def instructionTail : String := "**. This is a strict requirement."

/-- The instruction text sent with the request: the template literal
with `aspectRatio` substituted at its two placeholders. -/
def instructionText (aspectRatio : String) : String :=
  instructionHead ++ aspectRatio ++ instructionMiddle ++ aspectRatio ++ instructionTail

/-- The outbound request assembled by `transformToIdPhoto`. -/
structure GenerateContentRequest where
  model : String
  parts : List Part
  responseModalities : List Modality
  deriving DecidableEq, Repr

/-- The model identifier used by the call. -/
def modelName : String := "gemini-2.5-flash-image-preview"

/-- Request construction: one inline-data part carrying the source
image and its media type, followed by one text part carrying the
instruction, with image and text response modalities declared. -/
def buildRequest (imageData mimeType aspectRatio : String) : GenerateContentRequest :=
  { model := modelName
    parts :=
      [ { inlineData := some { data := some imageData, mimeType := some mimeType }, text := none }
      , { inlineData := none, text := some (instructionText aspectRatio) } ]
    responseModalities := [Modality.IMAGE, Modality.TEXT] }

/-- Module-level state of the service module: the captured credential.
The module declares only `const` bindings; there is no mutable field. -/
structure ClientState where
  apiKey : Option String
  deriving DecidableEq, Repr

/-- The warning printed when the API_KEY environment variable is unset
or empty. -/
def warnMessage : String :=
  "API_KEY environment variable not set. Using fallback for development. Please set your API key for production."

/-- Outcome of loading the module: warnings emitted and the resulting
module state. -/
structure InitResult where
  warnings : List String
  state : ClientState
  deriving DecidableEq, Repr

/-- Module initialization: read `process.env.API_KEY`, warn when it is
falsy (absent or the empty string), and construct the client. No path
fails. -/
def initModule (env : Option String) : InitResult :=
  { warnings := if env = none ∨ env = some "" then [warnMessage] else []
    state := { apiKey := env } }

/-- One complete call of `transformToIdPhoto` with the module state
passed explicitly and the transport modeled as an oracle from the built
request to a transport outcome. Returns the request that was sent, the
result, and the module state after the call. The function reads no
field of the state and writes none, so the state passes through
unchanged. -/
def transformCall (st : ClientState) (oracle : GenerateContentRequest → TransportResult)
    (imageData mimeType aspectRatio : String) :
    GenerateContentRequest × Except String String × ClientState :=
  let req := buildRequest imageData mimeType aspectRatio
  (req, transformToIdPhoto (oracle req), st)

/-- A part that carries inline data (the request's source-image part
shape). -/
def isImagePart (p : Part) : Bool := p.inlineData.isSome

/-- A part that carries text (the request's instruction part shape). -/
def isTextPart (p : Part) : Bool := p.text.isSome

/-- A well-shaped response whose first candidate carries the part list
`ps`, followed by further candidates `cs` (which the scan never
reads). -/
def respOf (ps : List Part) (cs : List Candidate) : GenerateContentResponse :=
  { candidates := some ({ content := some { parts := some ps } } :: cs) }

/-! Helper lemmas about the response scan. -/

theorem findImagePart_cons_some (p : Part) (l : List Part) (s : String)
    (hp : imagePayload p = some s) : findImagePart (p :: l) = some s := by
  simp [findImagePart, hp]

theorem findImagePart_cons_none (p : Part) (l : List Part)
    (hp : imagePayload p = none) : findImagePart (p :: l) = findImagePart l := by
  simp [findImagePart, hp]

theorem findImagePart_append_of_none (pre l : List Part)
    (h : ∀ q ∈ pre, imagePayload q = none) :
    findImagePart (pre ++ l) = findImagePart l := by
  induction pre with
  | nil => rfl
  | cons q qs ih =>
    rw [List.cons_append, findImagePart_cons_none q (qs ++ l) (h q (List.mem_cons_self q qs))]
    exact ih fun r hr => h r (List.mem_cons_of_mem q hr)

theorem findImagePart_eq_none_of_all_none (ps : List Part)
    (h : ∀ q ∈ ps, imagePayload q = none) : findImagePart ps = none := by
  have := findImagePart_append_of_none ps [] h
  simpa using this

theorem imagePayload_of_inlineData_none (p : Part) (hp : p.inlineData = none) :
    imagePayload p = none := by
  simp [imagePayload, hp]

theorem findImagePart_eq_find (ps : List Part) :
    findImagePart ps = (ps.find? fun p => (imagePayload p).isSome).bind imagePayload := by
  induction ps with
  | nil => rfl
  | cons p l ih =>
    cases hp : imagePayload p with
    | none => simp [findImagePart, List.find?, hp, ih]
    | some s => simp [findImagePart, List.find?, hp]

/-- C1: for every service response whose first candidate carries an
ordered part list splitting as `pre ++ p :: post`, where no part of
`pre` carries inline image data and `p` carries inline image data with
payload `s`, the transform resolves with exactly `s`, whatever the
parts around it are. -/
theorem transform_resolves_first_inline (pre post : List Part) (p : Part) (s : String)
    (cs : List Candidate)
    (hp : imagePayload p = some s)
    (hpre : ∀ q ∈ pre, imagePayload q = none) :
    transformToIdPhoto (.ok (respOf (pre ++ p :: post) cs)) = .ok s := by
  have hf : findImagePart (pre ++ p :: post) = some s := by
    rw [findImagePart_append_of_none pre (p :: post) hpre]
    exact findImagePart_cons_some p post s hp
  simp [transformToIdPhoto, runTransform, scanResponse, respOf, hf]

/-- Witness for C1: the example of the specification, a text part
followed by an inline-image part with payload QUJD. -/
theorem transform_resolves_first_inline_witness :
    transformToIdPhoto (.ok (respOf [ { text := some "ok" }, { inlineData := some { data := some "QUJD", mimeType := some "image/png" } } ] [])) = .ok "QUJD" :=
  transform_resolves_first_inline [{ text := some "ok" }] []
    { inlineData := some { data := some "QUJD", mimeType := some "image/png" } } "QUJD" []
    rfl (by intro q hq; rw [List.mem_singleton] at hq; subst hq; rfl)

/-- C2: for every service response whose first candidate carries only
text parts (no inline data at all), the transform rejects with the
fixed no-image message wrapped by the failure header. -/
theorem transform_text_only_rejects (ps : List Part) (cs : List Candidate)
    (h : ∀ q ∈ ps, q.inlineData = none ∧ ∃ t, q.text = some t) :
    transformToIdPhoto (.ok (respOf ps cs))
      = .error "Failed to generate ID photo: The AI did not return an image. Please try a different photo." := by
  have hf : findImagePart ps = none :=
    findImagePart_eq_none_of_all_none ps fun q hq =>
      imagePayload_of_inlineData_none q (h q hq).1
  simp [transformToIdPhoto, runTransform, scanResponse, respOf, hf]
  rfl

/-- Witness for C2: the example of the specification, a single text
part saying sorry. -/
theorem transform_text_only_rejects_witness :
    transformToIdPhoto (.ok (respOf [ { text := some "sorry" } ] []))
      = .error "Failed to generate ID photo: The AI did not return an image. Please try a different photo." :=
  transform_text_only_rejects [ { text := some "sorry" } ] []
    (by intro q hq; rw [List.mem_singleton] at hq; subst hq; exact ⟨rfl, "sorry", rfl⟩)

/-- C3: every thrown failure is re-signaled uniformly: a recognized
Error with message `m` becomes the header followed by `m`, a non-Error
value becomes the generic message, and whenever the try block fails no
success value is returned. -/
theorem transform_failure_uniform (m : String) :
    transformToIdPhoto (.thrown (.error m)) = .error (failureHeader ++ m)
    ∧ transformToIdPhoto (.thrown .nonError) = .error unknownErrorMessage
    ∧ (∀ tr : TransportResult, ∀ v, runTransform tr = .error v →
        ∀ s, transformToIdPhoto tr ≠ .ok s) := by
  refine ⟨rfl, rfl, ?_⟩
  intro tr v hv s
  cases v with
  | error msg => simp [transformToIdPhoto, hv]
  | nonError => simp [transformToIdPhoto, hv]

/-- Witness for C3: a concrete transport Error message is embedded, a
concrete non-Error thrown value yields the generic message. -/
theorem transform_failure_uniform_witness :
    transformToIdPhoto (.thrown (.error "network down")) = .error (failureHeader ++ "network down")
    ∧ transformToIdPhoto (.thrown .nonError) = .error unknownErrorMessage :=
  ⟨(transform_failure_uniform "network down").1, (transform_failure_uniform "network down").2.1⟩

set_option maxRecDepth 40000 in
/-- C4: the instruction text built for any aspect-ratio string carries
the literal ratio at two distinct places: right after the first
dimension requirement (It MUST BE EXACTLY ...) and inside the trailing
reminder that ends the instruction. -/
theorem instruction_mentions_ratio_twice (aspectRatio : String) :
    ∃ u v w, instructionText aspectRatio = u ++ aspectRatio ++ v ++ aspectRatio ++ w
      ∧ (∃ u0, u = u0 ++ "It **MUST BE EXACTLY ")
      ∧ (∃ v0, v = v0 ++ "Reminder: The final image's aspect ratio **MUST be ")
      ∧ w = "**. This is a strict requirement." :=
  ⟨instructionHead, instructionMiddle, instructionTail, rfl,
   ⟨"Transform the person in the image into a standard ID photo.\n\n**CRITICAL INSTRUCTIONS:**\n1.  **Final Image Dimensions:** The MOST IMPORTANT requirement is the final image's aspect ratio. ", rfl⟩,
   ⟨" (width to height)**. The entire output image file must have this specific shape. This instruction is more important than all others. Do not fail on this.\n2.  **Attire:** Dress the person in a simple, plain white collared shirt.\n3.  **Posture:** The person must face forward, looking directly at the camera with their shoulders straight and squared.\n4.  **Background:** Replace the entire background with a solid, plain, professional light blue color.\n5.  **Composition:** Crop the image to a head-and-shoulders portrait.\n6.  **Identity Preservation:** Do not change the person's face, hair, or identity.\n\n", rfl⟩,
   rfl⟩

/-- C5: every built request carries exactly one inline-data part and
exactly one text part; the inline part carries the source image with
its media type; and the response scan yields at most one payload, that
of the first qualifying part, ignoring all later parts. -/
theorem request_single_image_single_text (imageData mimeType aspectRatio : String) :
    ((buildRequest imageData mimeType aspectRatio).parts.filter isImagePart).length = 1
    ∧ ((buildRequest imageData mimeType aspectRatio).parts.filter isTextPart).length = 1
    ∧ (∃ p ∈ (buildRequest imageData mimeType aspectRatio).parts,
        p.inlineData = some { data := some imageData, mimeType := some mimeType })
    ∧ (∀ ps : List Part, findImagePart ps
        = (ps.find? fun p => (imagePayload p).isSome).bind imagePayload) := by
  refine ⟨?_, ?_, ?_, findImagePart_eq_find⟩
  · simp [buildRequest, isImagePart, List.filter]
  · simp [buildRequest, isTextPart, List.filter]
  · exact ⟨_, List.mem_cons_self _ _, rfl⟩

/-- C6: every built request declares that both the image and the text
response modalities are acceptable. -/
theorem request_declares_both_modalities (imageData mimeType aspectRatio : String) :
    Modality.IMAGE ∈ (buildRequest imageData mimeType aspectRatio).responseModalities
    ∧ Modality.TEXT ∈ (buildRequest imageData mimeType aspectRatio).responseModalities := by
  constructor <;> simp [buildRequest]

/-- C7: the call is stateless and deterministic in request
construction: a second call with identical inputs, run from the state
left by the first, builds the identical request and yields the
identical result, and the module state after a call equals the state
before it. -/
theorem transform_stateless_deterministic (st : ClientState)
    (oracle : GenerateContentRequest → TransportResult)
    (imageData mimeType aspectRatio : String) :
    (transformCall st oracle imageData mimeType aspectRatio).1
      = (transformCall (transformCall st oracle imageData mimeType aspectRatio).2.2
          oracle imageData mimeType aspectRatio).1
    ∧ (transformCall st oracle imageData mimeType aspectRatio).2.2 = st
    ∧ (transformCall st oracle imageData mimeType aspectRatio).2.1
      = (transformCall (transformCall st oracle imageData mimeType aspectRatio).2.2
          oracle imageData mimeType aspectRatio).2.1 :=
  ⟨rfl, rfl, rfl⟩

/-- C8: when the credential is absent (or empty) at initialization, the
module emits exactly the warning and still produces a state; a
subsequent transform call from that state hands the built request to
the transport oracle and returns whatever the transport outcome
dictates, rather than failing before the call is attempted. -/
theorem missing_credential_warns_only (env : Option String)
    (h : env = none ∨ env = some "") :
    (initModule env).warnings = [warnMessage]
    ∧ ∀ (oracle : GenerateContentRequest → TransportResult)
        (imageData mimeType aspectRatio : String),
        (transformCall (initModule env).state oracle imageData mimeType aspectRatio).2.1
          = transformToIdPhoto (oracle (buildRequest imageData mimeType aspectRatio)) := by
  refine ⟨?_, fun _ _ _ _ => rfl⟩
  show (if env = none ∨ env = some "" then [warnMessage] else []) = [warnMessage]
  rw [if_pos h]

/-- Witness for C8: with the credential absent, initialization warns
and a call whose transport throws a non-Error value returns the generic
message determined by the transport outcome. -/
theorem missing_credential_warns_only_witness :
    (initModule none).warnings = [warnMessage]
    ∧ (transformCall (initModule none).state (fun _ => .thrown .nonError)
        "img" "image/png" "3:4").2.1
      = transformToIdPhoto ((fun _ => TransportResult.thrown .nonError)
          (buildRequest "img" "image/png" "3:4")) :=
  ⟨(missing_credential_warns_only none (Or.inl rfl)).1,
   (missing_credential_warns_only none (Or.inl rfl)).2 _ "img" "image/png" "3:4"⟩

/-- C9: a part whose inline data payload is absent or empty is skipped
by the scan: when every inline-data part of the response carries an
absent or empty payload, the transform rejects with the wrapped
no-image message even though inline-data parts may be present. -/
theorem empty_inline_data_skipped (ps : List Part) (cs : List Candidate)
    (h : ∀ q ∈ ps, ∀ d, q.inlineData = some d → d.data = none ∨ d.data = some "") :
    transformToIdPhoto (.ok (respOf ps cs)) = .error (failureHeader ++ noImageMessage) := by
  have hall : ∀ q ∈ ps, imagePayload q = none := by
    intro q hq
    cases hd : q.inlineData with
    | none => exact imagePayload_of_inlineData_none q hd
    | some d => rcases h q hq d hd with h1 | h1 <;> simp [imagePayload, hd, h1]
  have hf := findImagePart_eq_none_of_all_none ps hall
  simp [transformToIdPhoto, runTransform, scanResponse, respOf, hf]

/-- Witness for C9: a response whose only part carries inline data with
an empty payload rejects with the wrapped no-image message. -/
theorem empty_inline_data_skipped_witness :
    transformToIdPhoto (.ok (respOf [ { inlineData := some { data := some "", mimeType := some "image/png" } } ] []))
      = .error (failureHeader ++ noImageMessage) :=
  empty_inline_data_skipped
    [ { inlineData := some { data := some "", mimeType := some "image/png" } } ] []
    (by
      intro q hq d hd
      rw [List.mem_singleton] at hq
      subst hq
      simp only [Option.some.injEq] at hd
      subst hd
      exact Or.inr rfl)

/-- C10: for every transport outcome, hence every response shape
including missing candidates, an empty candidate list or a missing
parts list, any rejection of the transform carries either a message
that starts with the failure header or exactly the generic unknown
message; no raw underlying error escapes. -/
theorem rejection_always_wrapped (tr : TransportResult) (msg : String)
    (h : transformToIdPhoto tr = .error msg) :
    (∃ rest, msg = failureHeader ++ rest) ∨ msg = unknownErrorMessage := by
  cases htr : runTransform tr with
  | ok s => simp [transformToIdPhoto, htr] at h
  | error v =>
    cases v with
    | error m =>
      left
      refine ⟨m, ?_⟩
      simp [transformToIdPhoto, htr] at h
      exact h.symm
    | nonError =>
      right
      simp [transformToIdPhoto, htr] at h
      exact h.symm

/-- Witness for C10: the rejection of a thrown non-Error transport
value is exactly the generic unknown message. -/
theorem rejection_always_wrapped_witness :
    (∃ rest, unknownErrorMessage = failureHeader ++ rest)
    ∨ unknownErrorMessage = unknownErrorMessage :=
  rejection_always_wrapped (.thrown .nonError) unknownErrorMessage rfl

end GenerateIdPhoto
